import Mathlib

/-!
Verification of the Lab_7_TP order-payment domain.

The Python source is shallowly embedded: `Decimal` amounts become `ℚ`,
`UUID`s become `Nat`, Python `int` becomes `Int`, and a raising method
becomes a function into `Except PyError _` (an error result models a raised
exception, and — since a raise aborts the method before any mutation at the
raise sites of this code base — an error result leaves the caller's order
value unchanged). `datetime` values are abstracted to `Option Unit`: only
whether `paid_at` is set is modelled, not the clock reading.
-/

namespace Lab7

/-- The Python exception classes that can cross the operations modelled
here.  The first four constructors mirror the `DomainException` subclasses
of `domain/domain_exceptions.py`; `valueErr` mirrors a plain `ValueError`
(as raised by `Money.__post_init__`, `Money.__add__`, `Money.__mul__` and
`Order.update_quantity`); `genericErr` mirrors any other `Exception`
(as raised by `FakePaymentGateway.charge`). -/
inductive PyError where
  | emptyOrderErr (msg : String)
  | orderAlreadyPaidErr (msg : String)
  | orderCannotBeModifiedErr (msg : String)
  | invalidOrderLineErr (msg : String)
  | valueErr (msg : String)
  | genericErr (msg : String)
deriving Repr, DecidableEq

/-- `str(e)`: the message carried by the exception. -/
def PyError.msg : PyError → String
  | .emptyOrderErr m => m
  | .orderAlreadyPaidErr m => m
  | .orderCannotBeModifiedErr m => m
  | .invalidOrderLineErr m => m
  | .valueErr m => m
  | .genericErr m => m

/-- `isinstance(e, DomainException)`: the four domain exception classes of
`domain/domain_exceptions.py` derive from `DomainException`; `ValueError`
and other exceptions do not. -/
def PyError.isDomainException : PyError → Bool
  | .emptyOrderErr _ => true
  | .orderAlreadyPaidErr _ => true
  | .orderCannotBeModifiedErr _ => true
  | .invalidOrderLineErr _ => true
  | .valueErr _ => false
  | .genericErr _ => false

/-- `domain/money.py` `Money`: a frozen dataclass of a `Decimal` amount
(embedded as `ℚ`) and a currency string. -/
structure Money where
  amount : ℚ
  currency : String
deriving Repr, DecidableEq

/-- The `Money(...)` constructor including `__post_init__`: a negative
amount raises `ValueError("Amount cannot be negative")`. -/
def Money.make (amount : ℚ) (currency : String) : Except PyError Money :=
  if amount < 0 then .error (.valueErr "Amount cannot be negative")
  else .ok ⟨amount, currency⟩

/-- `Money.__add__`: different currencies raise `ValueError`; the result is
built through the `Money` constructor, so its `__post_init__` check runs
again on the sum. -/
def Money.add (m other : Money) : Except PyError Money :=
  if m.currency ≠ other.currency then
    .error (.valueErr ("Cannot add different currencies: " ++ m.currency ++
      " and " ++ other.currency))
  else Money.make (m.amount + other.amount) m.currency

/-- `Money.__mul__` by a Python `int`: the result is built through the
`Money` constructor, so its `__post_init__` check runs on the product. -/
def Money.mul (m : Money) (quantity : Int) : Except PyError Money :=
  Money.make (m.amount * quantity) m.currency

/-- `domain/order_status.py` `OrderStatus`. -/
inductive OrderStatus where
  | pending
  | paid
  | cancelled
deriving Repr, DecidableEq

/-- `domain/order_aggregate.py` `OrderLine`: a value object of the `Order`
aggregate. -/
structure OrderLine where
  product_id : Nat
  product_name : String
  price : Money
  quantity : Int
deriving Repr, DecidableEq

/-- The `OrderLine(...)` constructor including `__post_init__`:
non-positive quantity, then non-positive price, raise
`InvalidOrderLineError`. -/
def OrderLine.make (product_id : Nat) (product_name : String) (price : Money)
    (quantity : Int) : Except PyError OrderLine :=
  if quantity ≤ 0 then .error (.invalidOrderLineErr "Quantity must be positive")
  else if price.amount ≤ 0 then .error (.invalidOrderLineErr "Price must be positive")
  else .ok ⟨product_id, product_name, price, quantity⟩

/-- `OrderLine.subtotal`: `price * quantity`. -/
def OrderLine.subtotal (l : OrderLine) : Except PyError Money :=
  l.price.mul l.quantity

/-- `domain/order_aggregate.py` `Order`: the aggregate root.  `_version`
is the optimistic-locking revision counter set to 0 in `__post_init__`. -/
structure Order where
  id : Nat
  customer_id : Nat
  lines : List OrderLine
  status : OrderStatus
  paid_at : Option Unit
  version : Nat
deriving Repr, DecidableEq

/-- A freshly constructed `Order()`: pending, no lines, revision 0,
`paid_at = None`. -/
def Order.new (id customer_id : Nat) : Order :=
  ⟨id, customer_id, [], .pending, none, 0⟩

/-- `Order._check_modifiable`: raises `OrderCannotBeModifiedError` exactly
when the status is `PAID`. -/
def Order.check_modifiable (o : Order) : Except PyError Unit :=
  if o.status = .paid then
    .error (.orderCannotBeModifiedErr "Cannot modify paid order")
  else .ok ()

/-- The merge loop of `Order.add_line`: find the first line with the given
product id and increment its quantity by the delta; `none` when no line
matches. -/
def mergeLine : List OrderLine → Nat → Int → Option (List OrderLine)
  | [], _, _ => none
  | l :: ls, pid, q =>
    if l.product_id = pid then some ({ l with quantity := l.quantity + q } :: ls)
    else (mergeLine ls pid q).map (l :: ·)

/-- `Order.add_line`: after the modifiability check, merge the quantity
into an existing line with the same product id (no re-validation of the
delta), or construct a new `OrderLine` (running its `__post_init__`) and
append it; either way the revision is incremented. -/
def Order.add_line (o : Order) (product_id : Nat) (product_name : String)
    (price : Money) (quantity : Int) : Except PyError Order := do
  o.check_modifiable
  match mergeLine o.lines product_id quantity with
  | some newLines => pure { o with lines := newLines, version := o.version + 1 }
  | none => do
      let line ← OrderLine.make product_id product_name price quantity
      pure { o with lines := o.lines ++ [line], version := o.version + 1 }

/-- `Order.remove_line`: drop every line with the given product id; the
revision is incremented only if the length changed. -/
def Order.remove_line (o : Order) (product_id : Nat) : Except PyError Order := do
  o.check_modifiable
  let newLines := o.lines.filter (fun l => l.product_id ≠ product_id)
  if newLines.length ≠ o.lines.length then
    pure { o with lines := newLines, version := o.version + 1 }
  else
    pure { o with lines := newLines }

/-- The in-place assignment loop of `Order.update_quantity`: set the first
matching line's quantity to the given value. -/
def setQty : List OrderLine → Nat → Int → List OrderLine
  | [], _, _ => []
  | l :: ls, pid, q =>
    if l.product_id = pid then { l with quantity := q } :: ls
    else l :: setQty ls pid q

/-- `Order.update_quantity`: after the modifiability check, scan for the
product; when found, a non-positive quantity delegates to `remove_line`
(and the loop then increments the revision a second time), a positive one
is assigned to the line with one revision increment; when no line matches,
raise `ValueError` (a plain `ValueError`, not a `DomainException`). -/
def Order.update_quantity (o : Order) (product_id : Nat) (quantity : Int) :
    Except PyError Order := do
  o.check_modifiable
  if o.lines.any (fun l => l.product_id == product_id) then
    if quantity ≤ 0 then do
      let o' ← o.remove_line product_id
      pure { o' with version := o'.version + 1 }
    else
      pure { o with lines := setQty o.lines product_id quantity,
                    version := o.version + 1 }
  else
    .error (.valueErr ("Product " ++ toString product_id ++ " not found in order"))

/-- `Order.clear_lines`: after the modifiability check, empty the line list
and increment the revision. -/
def Order.clear_lines (o : Order) : Except PyError Order := do
  o.check_modifiable
  pure { o with lines := [], version := o.version + 1 }

/-- The accumulation loop of `Order.total`:
`for line in self.lines: total = total + line.subtotal`. -/
def totalFold (acc : Money) : List OrderLine → Except PyError Money
  | [] => .ok acc
  | l :: ls => do
      let s ← l.subtotal
      let acc' ← acc.add s
      totalFold acc' ls

/-- `Order.total`: `Money(0)` (default currency `"USD"`) for an empty
order, else a left fold of line subtotals over `Money.__add__` starting
from a zero in the first line's currency. -/
def Order.total (o : Order) : Except PyError Money :=
  match o.lines with
  | [] => .ok ⟨0, "USD"⟩
  | l :: _ => totalFold ⟨0, l.price.currency⟩ o.lines

/-- `Order.pay`: empty order raises `EmptyOrderError`, an already `PAID`
order raises `OrderAlreadyPaidError`; otherwise the status becomes `PAID`,
`paid_at` is set and the revision is incremented. -/
def Order.pay (o : Order) : Except PyError Order :=
  if o.lines = [] then .error (.emptyOrderErr "Cannot pay empty order")
  else if o.status = .paid then .error (.orderAlreadyPaidErr "Order is already paid")
  else .ok { o with status := .paid, paid_at := some (), version := o.version + 1 }

/-- `Order.cancel`: after the modifiability check, the status becomes
`CANCELLED` and the revision is incremented. -/
def Order.cancel (o : Order) : Except PyError Order := do
  o.check_modifiable
  pure { o with status := .cancelled, version := o.version + 1 }

/-- `Order.line_count`. -/
def Order.line_count (o : Order) : Nat := o.lines.length

/-- One public operation on the `Order` aggregate, for statements that
quantify over operation sequences. -/
inductive Op where
  | addLine (product_id : Nat) (product_name : String) (price : Money) (quantity : Int)
  | removeLine (product_id : Nat)
  | updateQuantity (product_id : Nat) (quantity : Int)
  | clearLines
  | payOp
  | cancelOp
deriving Repr, DecidableEq

/-- Apply one public operation. -/
def applyOp (o : Order) : Op → Except PyError Order
  | .addLine pid n p q => o.add_line pid n p q
  | .removeLine pid => o.remove_line pid
  | .updateQuantity pid q => o.update_quantity pid q
  | .clearLines => o.clear_lines
  | .payOp => o.pay
  | .cancelOp => o.cancel

/-- `application/pay_order_usecase.py` `PaymentResult`. -/
structure PaymentResult where
  success : Bool
  order_id : Option Nat
  transaction_id : Option String
  error : Option String
deriving Repr, DecidableEq

/-- `infrastructure/order_repository.py` `InMemoryOrderRepository._orders`:
a dictionary from order id to order, embedded as an association list with
at most one binding per key. -/
abbrev Store := List (Nat × Order)

/-- `InMemoryOrderRepository.get_by_id`: `self._orders.get(order_id)`.
In the Python code this returns the stored object itself (despite the
comment promising a copy), so later in-place mutations of the returned
order are visible through the store. -/
def storeGet (s : Store) (order_id : Nat) : Option Order :=
  (List.find? (fun p => p.1 == order_id) s).map (·.2)

/-- `InMemoryOrderRepository.save`: `self._orders[order.id] = order`. -/
def storeSave (s : Store) (o : Order) : Store :=
  if List.any s (fun p => p.1 == o.id) then
    List.map (fun p => if p.1 == o.id then (p.1, o) else p) s
  else s ++ [(o.id, o)]

/-- The write-through of Python aliasing: `get_by_id` hands out the stored
object, so mutating it updates the binding at the looked-up key. -/
def storeSetAt (s : Store) (order_id : Nat) (o : Order) : Store :=
  List.map (fun p => if p.1 == order_id then (p.1, o) else p) s

/-- The two `except` clauses of `PayOrderUseCase.execute`: a
`DomainException` is surfaced with its message verbatim, any other
exception with the `"Payment processing error: "` prefix. -/
def handleErr (order_id : Nat) (e : PyError) : PaymentResult :=
  if e.isDomainException then
    ⟨false, some order_id, none, some e.msg⟩
  else
    ⟨false, some order_id, none, some ("Payment processing error: " ++ e.msg)⟩

/-- The observable outcome of one `PayOrderUseCase.execute` call: the
returned `PaymentResult`, the store contents afterwards, and whether the
gateway's `charge` and the repository's `save` were invoked. -/
structure ExecTrace where
  result : PaymentResult
  store : Store
  chargeCalled : Bool
  saveCalled : Bool

/-- `PayOrderUseCase.execute`, instrumented with call flags.  The gateway
is a parameter `charge` (the `PaymentGateway` dependency: it returns a
transaction id or raises).  `saveExc` models the repository's `save`:
`none` is the `InMemoryOrderRepository` behaviour (a dictionary write that
cannot raise), `some e` a repository whose `save` raises `e`.  Because
`get_by_id` returns the stored object itself, the successful in-place
`order.pay()` mutation is immediately visible in the store
(`storeSetAt`), before `charge` or `save` run; `order.pay()` raises
before mutating, so a failing `pay` leaves the store untouched. -/
def executeT (store : Store) (charge : Nat → Money → Except PyError String)
    (saveExc : Option PyError) (order_id : Nat) : ExecTrace :=
  match storeGet store order_id with
  | none =>
      ⟨⟨false, some order_id, none,
        some ("Order " ++ toString order_id ++ " not found")⟩, store, false, false⟩
  | some o =>
    match o.pay with
    | .error e => ⟨handleErr order_id e, store, false, false⟩
    | .ok o' =>
      let store1 := storeSetAt store order_id o'
      match o'.total with
      | .error e => ⟨handleErr order_id e, store1, false, false⟩
      | .ok amount =>
        match charge order_id amount with
        | .error e => ⟨handleErr order_id e, store1, true, false⟩
        | .ok transaction_id =>
          match saveExc with
          | some e => ⟨handleErr order_id e, store1, true, true⟩
          | none =>
              ⟨⟨true, some order_id, some transaction_id, none⟩,
               storeSave store1 o', true, true⟩

/-- `PayOrderUseCase.execute` as the caller sees it. -/
def execute (store : Store) (charge : Nat → Money → Except PyError String)
    (saveExc : Option PyError) (order_id : Nat) : PaymentResult × Store :=
  ((executeT store charge saveExc order_id).result,
   (executeT store charge saveExc order_id).store)

/-- `FakePaymentGateway.charge` with `success_rate=0.0,
simulate_failure=True`: every call raises a plain `Exception`. -/
def decliningCharge (order_id : Nat) (_amount : Money) : Except PyError String :=
  .error (.genericErr ("Payment gateway declined transaction for order " ++
    toString order_id))

/-- `price * quantity` for a line, as a rational. -/
def lineAmount (l : OrderLine) : ℚ := l.price.amount * l.quantity

/-- The line invariants of `OrderLine.__post_init__`: positive quantity
and positive price on every line. -/
def linesOK (o : Order) : Prop :=
  ∀ l ∈ o.lines, 0 < l.quantity ∧ 0 < l.price.amount

/-- Restriction to positive `add_line` deltas (the regime in which the
merge path keeps the invariant). -/
def opAddPositive : Op → Prop
  | .addLine _ _ _ q => 0 < q
  | _ => True

/-! ### Elimination lemmas: what a successful or failing operation implies -/

/-- A successful `pay` came from a non-empty, not-yet-paid order and only
set the status, the payment timestamp and the revision. -/
theorem pay_ok_elim (o o' : Order) (h : o.pay = .ok o') :
    o.lines ≠ [] ∧ o.status ≠ .paid ∧
    o' = { o with status := .paid, paid_at := some (), version := o.version + 1 } := by
  unfold Order.pay at h
  by_cases h1 : o.lines = []
  · simp [h1] at h
  · by_cases h2 : o.status = OrderStatus.paid
    · simp [h1, h2] at h
    · simp [h1, h2] at h
      exact ⟨h1, h2, h.symm⟩

/-- A failing `pay` raised one of the two domain errors of its guards. -/
theorem pay_error_elim (o : Order) (e : PyError) (h : o.pay = .error e) :
    e = .emptyOrderErr "Cannot pay empty order" ∨
    e = .orderAlreadyPaidErr "Order is already paid" := by
  unfold Order.pay at h
  by_cases h1 : o.lines = []
  · simp [h1] at h
    exact Or.inl h.symm
  · by_cases h2 : o.status = OrderStatus.paid
    · simp [h1, h2] at h
      exact Or.inr h.symm
    · simp [h1, h2] at h

/-- A successful `add_line` came from a non-`PAID` order, kept the status,
and either merged the delta into the first matching line or appended a
freshly validated line. -/
theorem add_line_ok_elim (o : Order) (pid : Nat) (n : String) (p : Money)
    (q : Int) (o' : Order) (h : o.add_line pid n p q = .ok o') :
    o.status ≠ .paid ∧ o'.status = o.status ∧
    ((∃ ls, mergeLine o.lines pid q = some ls ∧
        o' = { o with lines := ls, version := o.version + 1 }) ∨
      (mergeLine o.lines pid q = none ∧ ∃ l, OrderLine.make pid n p q = .ok l ∧
        o' = { o with lines := o.lines ++ [l], version := o.version + 1 })) := by
  by_cases hp : o.status = OrderStatus.paid
  · simp [Order.add_line, Order.check_modifiable, Bind.bind, Except.bind, Functor.map, Except.map, pure, Except.pure, hp] at h
  · cases hm : mergeLine o.lines pid q with
    | some ls =>
        simp [Order.add_line, Order.check_modifiable, Bind.bind, Except.bind, Functor.map, Except.map, pure, Except.pure, hp, hm] at h
        exact ⟨hp, by rw [← h], Or.inl ⟨ls, rfl, h.symm⟩⟩
    | none =>
        cases hl : OrderLine.make pid n p q with
        | error e => simp [Order.add_line, Order.check_modifiable, Bind.bind, Except.bind, Functor.map, Except.map, pure, Except.pure, hp, hm, hl] at h
        | ok l =>
            simp [Order.add_line, Order.check_modifiable, Bind.bind, Except.bind, Functor.map, Except.map, pure, Except.pure, hp, hm, hl] at h
            exact ⟨hp, by rw [← h], Or.inr ⟨rfl, l, rfl, h.symm⟩⟩

/-- A successful `remove_line` came from a non-`PAID` order, kept the
status and replaced the lines by the filter dropping the product. -/
theorem remove_line_ok_elim (o : Order) (pid : Nat) (o' : Order)
    (h : o.remove_line pid = .ok o') :
    o.status ≠ .paid ∧ o'.status = o.status ∧
    o'.lines = o.lines.filter (fun l => l.product_id ≠ pid) := by
  by_cases hp : o.status = OrderStatus.paid
  · simp [Order.remove_line, Order.check_modifiable, Bind.bind, Except.bind, pure,
      Except.pure, hp] at h
  · unfold Order.remove_line at h
    simp only [Order.check_modifiable, hp, if_false, Bind.bind, Except.bind] at h
    split at h <;>
      (simp only [pure, Except.pure, Except.ok.injEq] at h; subst h; exact ⟨hp, rfl, rfl⟩)

/-- A successful `update_quantity` came from a non-`PAID` order with a
matching line, kept the status, and either (non-positive quantity)
delegated to `remove_line` — filtering the product out, two revision
increments — or (positive quantity) assigned the quantity to the first
matching line. -/
theorem update_quantity_ok_elim (o : Order) (pid : Nat) (q : Int) (o' : Order)
    (h : o.update_quantity pid q = .ok o') :
    o.status ≠ .paid ∧ o'.status = o.status ∧
    (o.lines.any (fun l => l.product_id == pid)) = true ∧
    ((q ≤ 0 ∧ o'.lines = o.lines.filter (fun l => l.product_id ≠ pid)) ∨
      (0 < q ∧ o' = { o with lines := setQty o.lines pid q, version := o.version + 1 })) := by
  by_cases hp : o.status = OrderStatus.paid
  · simp [Order.update_quantity, Order.check_modifiable, Bind.bind, Except.bind, pure, Except.pure, hp] at h
  · by_cases hfound : (o.lines.any (fun l => l.product_id == pid)) = true
    · by_cases hq : q ≤ 0
      · have hdel : o.update_quantity pid q =
            (o.remove_line pid).bind (fun o₁ => .ok { o₁ with version := o₁.version + 1 }) := by
          unfold Order.update_quantity
          simp [Order.check_modifiable, hp, hfound, hq, Bind.bind, Except.bind,
            pure, Except.pure]
        rw [hdel] at h
        cases hrem : o.remove_line pid with
        | error e => rw [hrem] at h; simp [Except.bind] at h
        | ok o₁ =>
            rw [hrem] at h
            simp only [Except.bind, Except.ok.injEq] at h
            obtain ⟨-, h2, h3⟩ := remove_line_ok_elim o pid o₁ hrem
            subst h
            exact ⟨hp, h2, hfound, Or.inl ⟨hq, h3⟩⟩
      · simp [Order.update_quantity, Order.check_modifiable, Bind.bind, Except.bind,
          pure, Except.pure, hp, hfound, hq] at h
        exact ⟨hp, by rw [← h], hfound, Or.inr ⟨by omega, h.symm⟩⟩
    · simp [Order.update_quantity, Order.check_modifiable, Bind.bind, Except.bind, pure, Except.pure, hp, hfound] at h

/-- A successful `clear_lines` came from a non-`PAID` order, kept the
status and emptied the lines. -/
theorem clear_lines_ok_elim (o o' : Order) (h : o.clear_lines = .ok o') :
    o.status ≠ .paid ∧ o' = { o with lines := [], version := o.version + 1 } := by
  by_cases hp : o.status = OrderStatus.paid
  · simp [Order.clear_lines, Order.check_modifiable, Bind.bind, Except.bind, hp] at h
  · simp [Order.clear_lines, Order.check_modifiable, Bind.bind, Except.bind, pure,
      Except.pure, hp] at h
    exact ⟨hp, h.symm⟩

/-- A successful `cancel` came from a non-`PAID` order and set the status
to `CANCELLED`. -/
theorem cancel_ok_elim (o o' : Order) (h : o.cancel = .ok o') :
    o.status ≠ .paid ∧ o' = { o with status := .cancelled, version := o.version + 1 } := by
  by_cases hp : o.status = OrderStatus.paid
  · simp [Order.cancel, Order.check_modifiable, Bind.bind, Except.bind, hp] at h
  · simp [Order.cancel, Order.check_modifiable, Bind.bind, Except.bind, pure,
      Except.pure, hp] at h
    exact ⟨hp, h.symm⟩

/-- On a `PAID` order every mutating operation raises
`OrderCannotBeModifiedError` out of `_check_modifiable`. -/
theorem paid_mutators_error (o : Order) (hp : o.status = .paid) :
    (∀ pid n p q, o.add_line pid n p q =
      .error (.orderCannotBeModifiedErr "Cannot modify paid order")) ∧
    (∀ pid, o.remove_line pid =
      .error (.orderCannotBeModifiedErr "Cannot modify paid order")) ∧
    (∀ pid q, o.update_quantity pid q =
      .error (.orderCannotBeModifiedErr "Cannot modify paid order")) ∧
    (o.clear_lines = .error (.orderCannotBeModifiedErr "Cannot modify paid order")) ∧
    (o.cancel = .error (.orderCannotBeModifiedErr "Cannot modify paid order")) := by
  refine ⟨fun pid n p q => ?_, fun pid => ?_, fun pid q => ?_, ?_, ?_⟩ <;>
    simp [Order.add_line, Order.remove_line, Order.update_quantity, Order.clear_lines,
      Order.cancel, Order.check_modifiable, hp, Bind.bind, Except.bind]

/-- In the found-and-non-positive case, `update_quantity` is exactly
`remove_line` followed by the loop's extra revision increment. -/
theorem update_quantity_delegates (o : Order) (pid : Nat) (q : Int)
    (hp : o.status ≠ .paid)
    (hfound : (o.lines.any (fun l => l.product_id == pid)) = true) (hq : q ≤ 0) :
    o.update_quantity pid q =
      (o.remove_line pid).bind (fun o₁ => .ok { o₁ with version := o₁.version + 1 }) := by
  unfold Order.update_quantity
  simp [Order.check_modifiable, hp, hfound, hq, Bind.bind, Except.bind, pure, Except.pure]

/-- When no line carries the product, `update_quantity` raises the plain
`ValueError` of its fall-through. -/
theorem update_quantity_not_found (o : Order) (pid : Nat) (q : Int)
    (hp : o.status ≠ .paid) (hnone : ∀ l ∈ o.lines, l.product_id ≠ pid) :
    o.update_quantity pid q =
      .error (.valueErr ("Product " ++ toString pid ++ " not found in order")) := by
  have hfound : (o.lines.any (fun l => l.product_id == pid)) = false := by
    simp only [List.any_eq_false]
    intro l hl
    simpa using hnone l hl
  simp [Order.update_quantity, Order.check_modifiable, hp, hfound, Bind.bind, Except.bind]

/-- Every line of a merged list is either an untouched original line or an
original line with the delta added to its quantity. -/
theorem mergeLine_mem_elim (ls : List OrderLine) (pid : Nat) (q : Int)
    (ls' : List OrderLine) (h : mergeLine ls pid q = some ls') :
    ∀ l' ∈ ls', l' ∈ ls ∨ ∃ l ∈ ls, l' = { l with quantity := l.quantity + q } := by
  induction ls generalizing ls' with
  | nil => simp [mergeLine] at h
  | cons a ls ih =>
      by_cases ha : a.product_id = pid
      · simp [mergeLine, ha] at h
        subst h
        intro l' hl'
        rcases List.mem_cons.mp hl' with h1 | h1
        · exact Or.inr ⟨a, List.mem_cons_self a ls, by rw [ha]; exact h1⟩
        · exact Or.inl (List.mem_cons_of_mem a h1)
      · simp only [mergeLine, ha, if_false] at h
        cases hm : mergeLine ls pid q with
        | none => rw [hm] at h; simp [Option.map] at h
        | some ls₁ =>
            rw [hm] at h
            simp only [Option.map_some', Option.some.injEq] at h
            subst h
            intro l' hl'
            rcases List.mem_cons.mp hl' with h1 | h1
            · exact Or.inl (by rw [h1]; exact List.mem_cons_self a ls)
            · rcases ih ls₁ hm l' h1 with h2 | ⟨l, hl, h2⟩
              · exact Or.inl (List.mem_cons_of_mem a h2)
              · exact Or.inr ⟨l, List.mem_cons_of_mem a hl, h2⟩

/-- Every line after the in-place quantity assignment is either an
untouched original line or an original line with its quantity replaced. -/
theorem setQty_mem_elim (ls : List OrderLine) (pid : Nat) (q : Int) :
    ∀ l' ∈ setQty ls pid q, l' ∈ ls ∨ ∃ l ∈ ls, l' = { l with quantity := q } := by
  induction ls with
  | nil => simp [setQty]
  | cons a ls ih =>
      by_cases ha : a.product_id = pid
      · simp only [setQty, ha, if_true]
        intro l' hl'
        rcases List.mem_cons.mp hl' with h1 | h1
        · exact Or.inr ⟨a, List.mem_cons_self a ls, by rw [ha]; exact h1⟩
        · exact Or.inl (List.mem_cons_of_mem a h1)

      · simp only [setQty, ha, if_false]
        intro l' hl'
        rcases List.mem_cons.mp hl' with h1 | h1
        · exact Or.inl (by rw [h1]; exact List.mem_cons_self a ls)
        · rcases ih l' h1 with h2 | ⟨l, hl, h2⟩
          · exact Or.inl (List.mem_cons_of_mem a h2)
          · exact Or.inr ⟨l, List.mem_cons_of_mem a hl, h2⟩

/-- Dropping one present product from a duplicate-free line list shortens
it by exactly one. -/
theorem filter_drop_one_length (ls : List OrderLine) (pid : Nat)
    (hnd : (ls.map (fun l => l.product_id)).Nodup)
    (hmem : ∃ l ∈ ls, l.product_id = pid) :
    (ls.filter (fun l => l.product_id ≠ pid)).length = ls.length - 1 := by
  induction ls with
  | nil => simp at hmem
  | cons a ls ih =>
      have hnd' : a.product_id ∉ ls.map (fun l => l.product_id) ∧
          (ls.map (fun l => l.product_id)).Nodup := by
        simpa [List.nodup_cons] using hnd
      by_cases ha : a.product_id = pid
      · have hall : ls.filter (fun l => l.product_id ≠ pid) = ls := by
          apply List.filter_eq_self.mpr
          intro l hl
          simp only [ne_eq, decide_eq_true_eq]
          intro hlp
          exact hnd'.1 (by rw [← ha] at hlp; exact hlp ▸ List.mem_map_of_mem _ hl)
        have hstep : (a :: ls).filter (fun l => l.product_id ≠ pid) =
            ls.filter (fun l => l.product_id ≠ pid) := by
          simp [List.filter_cons, ha]
        rw [hstep, hall]
        simp
      · have hmem' : ∃ l ∈ ls, l.product_id = pid := by
          rcases hmem with ⟨l, hl, hlp⟩
          rcases List.mem_cons.mp hl with h1 | h1
          · exact absurd (h1 ▸ hlp) ha
          · exact ⟨l, h1, hlp⟩
        have hlen : 1 ≤ ls.length := by
          rcases hmem' with ⟨l, hl, -⟩
          exact List.length_pos.mpr (List.ne_nil_of_mem hl)
        have hrec := ih hnd'.2 hmem'
        have hstep : (a :: ls).filter (fun l => l.product_id ≠ pid) =
            a :: ls.filter (fun l => l.product_id ≠ pid) := by
          simp [List.filter_cons, ha]
        rw [hstep]
        simp only [List.length_cons]
        omega

/-- A successfully constructed `OrderLine` passed both `__post_init__`
checks. -/
theorem make_ok_elim (pid : Nat) (n : String) (p : Money) (q : Int)
    (l : OrderLine) (h : OrderLine.make pid n p q = .ok l) :
    0 < q ∧ 0 < p.amount ∧ l = ⟨pid, n, p, q⟩ := by
  unfold OrderLine.make at h
  by_cases h1 : q ≤ 0
  · simp [h1] at h
  · by_cases h2 : p.amount ≤ 0
    · simp [h1, h2] at h
    · simp [h1, h2] at h
      exact ⟨by omega, not_le.mp h2, h.symm⟩

/-- The accumulation loop of `total` on lines that all carry the
accumulator's currency and have non-negative subtotals sums the
subtotals. -/
theorem totalFold_ok (ls : List OrderLine) : ∀ acc : Money,
    0 ≤ acc.amount →
    (∀ l ∈ ls, l.price.currency = acc.currency) →
    (∀ l ∈ ls, 0 ≤ lineAmount l) →
    totalFold acc ls = .ok ⟨acc.amount + (ls.map lineAmount).sum, acc.currency⟩ := by
  induction ls with
  | nil => intro acc _ _ _; simp [totalFold]
  | cons a ls ih =>
      intro acc hacc hcur hpos
      have ha1 : a.price.currency = acc.currency := hcur a (List.mem_cons_self a ls)
      have ha2 : 0 ≤ lineAmount a := hpos a (List.mem_cons_self a ls)
      have ha2' : 0 ≤ a.price.amount * (a.quantity : ℚ) := ha2
      have hsub : a.subtotal = .ok ⟨lineAmount a, a.price.currency⟩ := by
        simp [OrderLine.subtotal, Money.mul, Money.make, lineAmount, not_lt.mpr ha2']
      have hadd : acc.add ⟨lineAmount a, a.price.currency⟩ =
          .ok ⟨acc.amount + lineAmount a, acc.currency⟩ := by
        simp [Money.add, Money.make, ha1, lineAmount, not_lt.mpr (add_nonneg hacc ha2')]
      have ih' := ih ⟨acc.amount + lineAmount a, acc.currency⟩
        (add_nonneg hacc ha2)
        (fun l hl => hcur l (List.mem_cons_of_mem a hl))
        (fun l hl => hpos l (List.mem_cons_of_mem a hl))
      simp only [totalFold, hsub, hadd, Bind.bind, Except.bind, ih', List.map_cons,
        List.sum_cons]
      rw [add_assoc]

/-- The accumulation loop of `total` hits the `Money.__add__` currency
guard as soon as a line's currency differs from the accumulator's. -/
theorem totalFold_mismatch (ls : List OrderLine) : ∀ acc : Money,
    0 ≤ acc.amount →
    (∀ l ∈ ls, 0 ≤ lineAmount l) →
    (∃ l ∈ ls, l.price.currency ≠ acc.currency) →
    ∃ c₂, c₂ ≠ acc.currency ∧
      totalFold acc ls = .error (.valueErr ("Cannot add different currencies: " ++
        acc.currency ++ " and " ++ c₂)) := by
  induction ls with
  | nil => intro acc _ _ hmix; simp at hmix
  | cons a ls ih =>
      intro acc hacc hpos hmix
      have ha2 : 0 ≤ lineAmount a := hpos a (List.mem_cons_self a ls)
      have ha2' : 0 ≤ a.price.amount * (a.quantity : ℚ) := ha2
      have hsub : a.subtotal = .ok ⟨lineAmount a, a.price.currency⟩ := by
        simp [OrderLine.subtotal, Money.mul, Money.make, lineAmount, not_lt.mpr ha2']
      by_cases ha : a.price.currency = acc.currency
      · have hmix' : ∃ l ∈ ls, l.price.currency ≠ acc.currency := by
          rcases hmix with ⟨l, hl, hlc⟩
          rcases List.mem_cons.mp hl with h1 | h1
          · exact absurd (h1 ▸ hlc) (by simp [ha])
          · exact ⟨l, h1, hlc⟩
        have hadd : acc.add ⟨lineAmount a, a.price.currency⟩ =
            .ok ⟨acc.amount + lineAmount a, acc.currency⟩ := by
          simp [Money.add, Money.make, ha, lineAmount, not_lt.mpr (add_nonneg hacc ha2')]
        have ih' := ih ⟨acc.amount + lineAmount a, acc.currency⟩
          (add_nonneg hacc ha2)
          (fun l hl => hpos l (List.mem_cons_of_mem a hl)) hmix'
        simpa only [totalFold, hsub, hadd, Bind.bind, Except.bind] using ih'
      · refine ⟨a.price.currency, ha, ?_⟩
        have hne' : acc.currency ≠ a.price.currency := fun hh => ha hh.symm
        have hadd : acc.add ⟨lineAmount a, a.price.currency⟩ =
            .error (.valueErr ("Cannot add different currencies: " ++ acc.currency ++
              " and " ++ a.price.currency)) := by
          simp [Money.add, hne']
        simp only [totalFold, hsub, hadd, Bind.bind, Except.bind]

/-- `total` on a non-empty order whose lines all carry one currency and
satisfy the line invariants is the sum of the line subtotals in that
currency. -/
theorem total_ok_of_uniform (o : Order) (c : String)
    (hc : ∀ l ∈ o.lines, l.price.currency = c ∧ 0 < l.price.amount ∧ 0 < l.quantity)
    (hne : o.lines ≠ []) :
    o.total = .ok ⟨(o.lines.map lineAmount).sum, c⟩ := by
  cases hl : o.lines with
  | nil => exact absurd hl hne
  | cons a rest =>
      have hc' : ∀ l ∈ o.lines, l.price.currency = c ∧ 0 ≤ lineAmount l := by
        intro l hlmem
        obtain ⟨h1, h2, h3⟩ := hc l hlmem
        exact ⟨h1, le_of_lt (by
          have : (0 : ℚ) < (l.quantity : ℚ) := by exact_mod_cast h3
          exact mul_pos h2 this)⟩
      have hac : a.price.currency = c :=
        (hc' a (by rw [hl]; exact List.mem_cons_self a rest)).1
      have hfold := totalFold_ok (a :: rest) ⟨0, a.price.currency⟩ le_rfl
        (fun l hlmem => by rw [hac, (hc' l (hl ▸ hlmem)).1])
        (fun l hlmem => (hc' l (hl ▸ hlmem)).2)
      have htot : o.total = totalFold ⟨0, a.price.currency⟩ (a :: rest) := by
        unfold Order.total
        rw [hl]
      rw [htot, hfold]
      simp [hac]

/-! ### Path lemmas for `execute` -/

/-- `execute` when the order is missing from the store. -/
theorem executeT_not_found (store : Store) (charge : Nat → Money → Except PyError String)
    (saveExc : Option PyError) (oid : Nat) (hget : storeGet store oid = none) :
    executeT store charge saveExc oid =
      ⟨⟨false, some oid, none, some ("Order " ++ toString oid ++ " not found")⟩,
       store, false, false⟩ := by
  simp [executeT, hget]

/-- `execute` when `order.pay()` raises. -/
theorem executeT_pay_error (store : Store) (charge : Nat → Money → Except PyError String)
    (saveExc : Option PyError) (oid : Nat) (o : Order) (e : PyError)
    (hget : storeGet store oid = some o) (hpay : o.pay = .error e) :
    executeT store charge saveExc oid = ⟨handleErr oid e, store, false, false⟩ := by
  simp [executeT, hget, hpay]

/-- `execute` when `order.total` raises after a successful `pay`. -/
theorem executeT_total_error (store : Store) (charge : Nat → Money → Except PyError String)
    (saveExc : Option PyError) (oid : Nat) (o o' : Order) (e : PyError)
    (hget : storeGet store oid = some o) (hpay : o.pay = .ok o')
    (htot : o'.total = .error e) :
    executeT store charge saveExc oid =
      ⟨handleErr oid e, storeSetAt store oid o', false, false⟩ := by
  simp [executeT, hget, hpay, htot]

/-- `execute` when the gateway's `charge` raises after a successful
`pay`. -/
theorem executeT_charge_error (store : Store) (charge : Nat → Money → Except PyError String)
    (saveExc : Option PyError) (oid : Nat) (o o' : Order) (t : Money) (e : PyError)
    (hget : storeGet store oid = some o) (hpay : o.pay = .ok o')
    (htot : o'.total = .ok t) (hch : charge oid t = .error e) :
    executeT store charge saveExc oid =
      ⟨handleErr oid e, storeSetAt store oid o', true, false⟩ := by
  simp [executeT, hget, hpay, htot, hch]

/-- `execute` when the repository's `save` raises after a successful
charge. -/
theorem executeT_save_error (store : Store) (charge : Nat → Money → Except PyError String)
    (oid : Nat) (o o' : Order) (t : Money) (txid : String) (e : PyError)
    (hget : storeGet store oid = some o) (hpay : o.pay = .ok o')
    (htot : o'.total = .ok t) (hch : charge oid t = .ok txid) :
    executeT store charge (some e) oid =
      ⟨handleErr oid e, storeSetAt store oid o', true, true⟩ := by
  simp [executeT, hget, hpay, htot, hch]

/-- `execute` on the all-success path. -/
theorem executeT_success (store : Store) (charge : Nat → Money → Except PyError String)
    (oid : Nat) (o o' : Order) (t : Money) (txid : String)
    (hget : storeGet store oid = some o) (hpay : o.pay = .ok o')
    (htot : o'.total = .ok t) (hch : charge oid t = .ok txid) :
    executeT store charge none oid =
      ⟨⟨true, some oid, some txid, none⟩,
       storeSave (storeSetAt store oid o') o', true, true⟩ := by
  simp [executeT, hget, hpay, htot, hch]

/-! ### Claim C1 -/

/-- Claim C1 as stated is false: an order reached by the public operations
`add_line`; `cancel` is in `CANCELLED` status, yet `pay` succeeds on it and
moves it to `PAID` — `pay` only guards against emptiness and the `PAID`
status, not against `CANCELLED`. -/
theorem C1_counterexample :
    ((((Order.new 1 2).add_line 5 "P" ⟨1, "USD"⟩ 1).bind Order.cancel).bind
      Order.pay).map Order.status = .ok .paid := by rfl

/-- Claim C1, amended: `PAID` is terminal — every operation fails on a
`PAID` order; from `PENDING` the only status changes are `pay` to `PAID`
and `cancel` to `CANCELLED`; but `CANCELLED` is terminal only for the
mutators — `pay` succeeds on any non-empty `CANCELLED` order and moves it
to `PAID`. -/
theorem C1_amended (o : Order) (op : Op) :
    (o.status = .paid → ∀ o', applyOp o op ≠ .ok o') ∧
    (∀ o', o.status = .cancelled → applyOp o op = .ok o' →
      o'.status = .cancelled ∨ (op = .payOp ∧ o.lines ≠ [] ∧ o'.status = .paid)) ∧
    (∀ o', o.status = .pending → applyOp o op = .ok o' →
      o'.status = .pending ∨ (op = .payOp ∧ o'.status = .paid) ∨
      (op = .cancelOp ∧ o'.status = .cancelled)) := by
  refine ⟨?_, ?_, ?_⟩
  · intro hp o' hok
    cases op with
    | payOp =>
        obtain ⟨-, h2, -⟩ := pay_ok_elim o o' hok
        exact h2 hp
    | addLine pid n p q =>
        rw [show applyOp o (.addLine pid n p q) = o.add_line pid n p q from rfl,
          (paid_mutators_error o hp).1 pid n p q] at hok
        cases hok
    | removeLine pid =>
        rw [show applyOp o (.removeLine pid) = o.remove_line pid from rfl,
          (paid_mutators_error o hp).2.1 pid] at hok
        cases hok
    | updateQuantity pid q =>
        rw [show applyOp o (.updateQuantity pid q) = o.update_quantity pid q from rfl,
          (paid_mutators_error o hp).2.2.1 pid q] at hok
        cases hok
    | clearLines =>
        rw [show applyOp o .clearLines = o.clear_lines from rfl,
          (paid_mutators_error o hp).2.2.2.1] at hok
        cases hok
    | cancelOp =>
        rw [show applyOp o .cancelOp = o.cancel from rfl,
          (paid_mutators_error o hp).2.2.2.2] at hok
        cases hok
  · intro o' hc hok
    cases op with
    | addLine pid n p q =>
        obtain ⟨-, h2, -⟩ := add_line_ok_elim o pid n p q o' hok
        exact Or.inl (h2.trans hc)
    | removeLine pid =>
        obtain ⟨-, h2, -⟩ := remove_line_ok_elim o pid o' hok
        exact Or.inl (h2.trans hc)
    | updateQuantity pid q =>
        obtain ⟨-, h2, -⟩ := update_quantity_ok_elim o pid q o' hok
        exact Or.inl (h2.trans hc)
    | clearLines =>
        obtain ⟨-, h2⟩ := clear_lines_ok_elim o o' hok
        exact Or.inl (by rw [h2]; exact hc)
    | cancelOp =>
        obtain ⟨-, h2⟩ := cancel_ok_elim o o' hok
        exact Or.inl (by rw [h2])
    | payOp =>
        obtain ⟨h1, -, h3⟩ := pay_ok_elim o o' hok
        exact Or.inr ⟨rfl, h1, by rw [h3]⟩
  · intro o' hpend hok
    cases op with
    | addLine pid n p q =>
        obtain ⟨-, h2, -⟩ := add_line_ok_elim o pid n p q o' hok
        exact Or.inl (h2.trans hpend)
    | removeLine pid =>
        obtain ⟨-, h2, -⟩ := remove_line_ok_elim o pid o' hok
        exact Or.inl (h2.trans hpend)
    | updateQuantity pid q =>
        obtain ⟨-, h2, -⟩ := update_quantity_ok_elim o pid q o' hok
        exact Or.inl (h2.trans hpend)
    | clearLines =>
        obtain ⟨-, h2⟩ := clear_lines_ok_elim o o' hok
        exact Or.inl (by rw [h2]; exact hpend)
    | cancelOp =>
        obtain ⟨-, h2⟩ := cancel_ok_elim o o' hok
        exact Or.inr (Or.inr ⟨rfl, by rw [h2]⟩)
    | payOp =>
        obtain ⟨-, -, h3⟩ := pay_ok_elim o o' hok
        exact Or.inr (Or.inl ⟨rfl, by rw [h3]⟩)

/-- Closed instances of the three parts of the amended C1, at concrete
orders in each status. -/
theorem C1_amended_witness :
    (applyOp (⟨1, 2, [⟨5, "P", ⟨1, "USD"⟩, 1⟩], .paid, some (), 2⟩ : Order) .clearLines ≠
      .ok (Order.new 9 9)) ∧
    ((⟨1, 2, [⟨5, "P", ⟨1, "USD"⟩, 1⟩], .paid, some (), 3⟩ : Order).status = .cancelled ∨
      (Op.payOp = .payOp ∧
        (⟨1, 2, [⟨5, "P", ⟨1, "USD"⟩, 1⟩], .cancelled, none, 2⟩ : Order).lines ≠ [] ∧
        (⟨1, 2, [⟨5, "P", ⟨1, "USD"⟩, 1⟩], .paid, some (), 3⟩ : Order).status = .paid)) ∧
    ((⟨1, 2, [], .cancelled, none, 1⟩ : Order).status = .pending ∨
      (Op.cancelOp = .payOp ∧
        (⟨1, 2, [], .cancelled, none, 1⟩ : Order).status = .paid) ∨
      (Op.cancelOp = .cancelOp ∧
        (⟨1, 2, [], .cancelled, none, 1⟩ : Order).status = .cancelled)) :=
  ⟨(C1_amended ⟨1, 2, [⟨5, "P", ⟨1, "USD"⟩, 1⟩], .paid, some (), 2⟩ .clearLines).1
      rfl (Order.new 9 9),
   (C1_amended ⟨1, 2, [⟨5, "P", ⟨1, "USD"⟩, 1⟩], .cancelled, none, 2⟩ .payOp).2.1
      ⟨1, 2, [⟨5, "P", ⟨1, "USD"⟩, 1⟩], .paid, some (), 3⟩ rfl rfl,
   (C1_amended ⟨1, 2, [], .pending, none, 0⟩ .cancelOp).2.2
      ⟨1, 2, [], .cancelled, none, 1⟩ rfl rfl⟩

/-! ### Claim C2 -/

/-- Claim C2 is a code bug: with a gateway that always declines, `execute`
on a stored one-line pending order returns the failure result the spec
describes, but the store's order for that id is left in `PAID` status —
`get_by_id` returns the stored object itself (despite its comment
promising a copy), so the in-memory `pay()` mutation leaks into the store
even though `save()` is never reached.  The repository's own test
(`test_payment_gateway_failure`) asserts the stored order is not paid,
which this evaluation refutes. -/
theorem C2_failed_charge_leaves_store_paid :
    (executeT [(1, ⟨1, 2, [⟨5, "Laptop", ⟨99999/100, "USD"⟩, 1⟩], .pending, none, 1⟩)]
        decliningCharge none 1).result =
      ⟨false, some 1, none,
        some "Payment processing error: Payment gateway declined transaction for order 1"⟩ ∧
    (storeGet (executeT [(1, ⟨1, 2, [⟨5, "Laptop", ⟨99999/100, "USD"⟩, 1⟩],
        .pending, none, 1⟩)] decliningCharge none 1).store 1).map Order.status =
      some .paid ∧
    (executeT [(1, ⟨1, 2, [⟨5, "Laptop", ⟨99999/100, "USD"⟩, 1⟩], .pending, none, 1⟩)]
        decliningCharge none 1).saveCalled = false := by
  have htot : (⟨1, 2, [⟨5, "Laptop", ⟨99999/100, "USD"⟩, 1⟩], .paid, some (), 2⟩ :
      Order).total = .ok ⟨([(⟨5, "Laptop", ⟨99999/100, "USD"⟩, 1⟩ :
        OrderLine)].map lineAmount).sum, "USD"⟩ := by
    apply total_ok_of_uniform
    · intro l hl
      rw [List.mem_singleton.mp hl]
      refine ⟨rfl, by norm_num, by decide⟩
    · simp
  have h := executeT_charge_error
    [(1, ⟨1, 2, [⟨5, "Laptop", ⟨99999/100, "USD"⟩, 1⟩], .pending, none, 1⟩)]
    decliningCharge none 1
    ⟨1, 2, [⟨5, "Laptop", ⟨99999/100, "USD"⟩, 1⟩], .pending, none, 1⟩
    ⟨1, 2, [⟨5, "Laptop", ⟨99999/100, "USD"⟩, 1⟩], .paid, some (), 2⟩
    _ _ rfl rfl htot rfl
  rw [h]
  exact ⟨rfl, rfl, rfl⟩

/-! ### Claim C3 -/

/-- Claim C3 as stated is false: `add_line` with a negative delta on an
existing product merges without re-validation, producing a reachable order
whose single line has quantity 0 — violating the `quantity > 0` line
invariant. -/
theorem C3_counterexample :
    (((Order.new 1 2).add_line 5 "P" ⟨1, "USD"⟩ 1).bind
        (fun o => o.add_line 5 "P" ⟨1, "USD"⟩ (-1))) =
      .ok ⟨1, 2, [⟨5, "P", ⟨1, "USD"⟩, 0⟩], .pending, none, 2⟩ ∧
    ¬ linesOK ⟨1, 2, [⟨5, "P", ⟨1, "USD"⟩, 0⟩], .pending, none, 2⟩ := by
  refine ⟨rfl, fun h => ?_⟩
  have := (h ⟨5, "P", ⟨1, "USD"⟩, 0⟩ (List.mem_cons_self _ _)).1
  exact absurd this (by decide)

/-- Claim C3, amended: the line invariants hold initially and are
preserved by every public operation, provided each `add_line` call uses a
positive quantity; a non-positive merge delta (which the code does not
re-validate) is the only way to break them. -/
theorem C3_amended :
    (∀ i c, linesOK (Order.new i c)) ∧
    (∀ (o : Order) (op : Op) (o' : Order), linesOK o → opAddPositive op →
      applyOp o op = .ok o' → linesOK o') := by
  constructor
  · intro i c l hl
    simp [Order.new] at hl
  · intro o op o' hinv hq hok
    cases op with
    | addLine pid n p q =>
        obtain ⟨-, -, hcase⟩ := add_line_ok_elim o pid n p q o' hok
        rcases hcase with ⟨ls, hm, ho'⟩ | ⟨-, l, hmk, ho'⟩
        · intro l' hl'
          rw [ho'] at hl'
          rcases mergeLine_mem_elim o.lines pid q ls hm l' hl' with h1 | ⟨l, hl, h1⟩
          · exact hinv l' h1
          · obtain ⟨hq1, hp1⟩ := hinv l hl
            rw [h1]
            exact ⟨by simpa using add_pos hq1 hq, hp1⟩
        · intro l' hl'
          rw [ho'] at hl'
          rcases List.mem_append.mp hl' with h1 | h1
          · exact hinv l' h1
          · obtain ⟨hq1, hp1, hl1⟩ := make_ok_elim pid n p q l hmk
            rw [List.mem_singleton.mp h1, hl1]
            exact ⟨hq1, hp1⟩
    | removeLine pid =>
        obtain ⟨-, -, hlines⟩ := remove_line_ok_elim o pid o' hok
        intro l' hl'
        rw [hlines] at hl'
        exact hinv l' (List.mem_of_mem_filter hl')
    | updateQuantity pid q =>
        obtain ⟨-, -, -, hcase⟩ := update_quantity_ok_elim o pid q o' hok
        rcases hcase with ⟨-, hlines⟩ | ⟨hq1, ho'⟩
        · intro l' hl'
          rw [hlines] at hl'
          exact hinv l' (List.mem_of_mem_filter hl')
        · intro l' hl'
          rw [ho'] at hl'
          rcases setQty_mem_elim o.lines pid q l' hl' with h1 | ⟨l, hl, h1⟩
          · exact hinv l' h1
          · obtain ⟨-, hp1⟩ := hinv l hl
            rw [h1]
            exact ⟨hq1, hp1⟩
    | clearLines =>
        obtain ⟨-, ho'⟩ := clear_lines_ok_elim o o' hok
        intro l' hl'
        rw [ho'] at hl'
        simp at hl'
    | payOp =>
        obtain ⟨-, -, ho'⟩ := pay_ok_elim o o' hok
        intro l' hl'
        rw [ho'] at hl'
        exact hinv l' hl'
    | cancelOp =>
        obtain ⟨-, ho'⟩ := cancel_ok_elim o o' hok
        intro l' hl'
        rw [ho'] at hl'
        exact hinv l' hl'

/-- Closed instance of the amended C3: the invariant holds for a fresh
order, and is carried through a concrete positive-delta merge. -/
theorem C3_amended_witness :
    linesOK (Order.new 1 2) ∧
    linesOK ⟨1, 2, [⟨5, "P", ⟨1, "USD"⟩, 3⟩], .pending, none, 2⟩ :=
  ⟨C3_amended.1 1 2,
   C3_amended.2 ⟨1, 2, [⟨5, "P", ⟨1, "USD"⟩, 1⟩], .pending, none, 1⟩
     (.addLine 5 "P" ⟨1, "USD"⟩ 2) ⟨1, 2, [⟨5, "P", ⟨1, "USD"⟩, 3⟩], .pending, none, 2⟩
     (by intro l hl; rw [List.mem_singleton.mp hl]; exact ⟨by decide, by decide⟩)
     (by simp [opAddPositive]) rfl⟩

/-! ### Claim C4 -/

/-- Claim C4 as stated is false: a currency mismatch reaching `execute`
through `order.total` is raised as a plain `ValueError` by
`Money.__add__`, so the use case's `DomainException` handler does not
catch it; the generic handler surfaces it WITH the
`"Payment processing error: "` prefix instead of verbatim. -/
theorem C4_counterexample :
    (executeT [(1, ⟨1, 2, [⟨5, "A", ⟨1, "USD"⟩, 1⟩, ⟨6, "B", ⟨1, "EUR"⟩, 1⟩],
        .pending, none, 2⟩)] (fun _ _ => .ok "TXN_1") none 1).result.error =
      some "Payment processing error: Cannot add different currencies: USD and EUR" := by
  have hne : ("USD" : String) ≠ "EUR" := by decide
  have htot : (⟨1, 2, [⟨5, "A", ⟨1, "USD"⟩, 1⟩, ⟨6, "B", ⟨1, "EUR"⟩, 1⟩],
      .paid, some (), 3⟩ : Order).total =
      .error (.valueErr "Cannot add different currencies: USD and EUR") := by
    norm_num [Order.total, totalFold, OrderLine.subtotal, Money.mul, Money.add,
      Money.make, Bind.bind, Except.bind, pure, Except.pure, hne]
    rfl
  rw [executeT_total_error
    [(1, ⟨1, 2, [⟨5, "A", ⟨1, "USD"⟩, 1⟩, ⟨6, "B", ⟨1, "EUR"⟩, 1⟩], .pending, none, 2⟩)]
    (fun _ _ => .ok "TXN_1") none 1
    ⟨1, 2, [⟨5, "A", ⟨1, "USD"⟩, 1⟩, ⟨6, "B", ⟨1, "EUR"⟩, 1⟩], .pending, none, 2⟩
    ⟨1, 2, [⟨5, "A", ⟨1, "USD"⟩, 1⟩, ⟨6, "B", ⟨1, "EUR"⟩, 1⟩], .paid, some (), 3⟩
    (.valueErr "Cannot add different currencies: USD and EUR") rfl rfl htot]
  rfl

/-- Claim C4, amended: only `EmptyOrder`, `OrderAlreadyPaid`,
`OrderCannotBeModified` and `InvalidOrderLine` derive from the common
domain-error category, and the use case's domain handler surfaces those
verbatim; `ProductNotFound`, `CurrencyMismatch` and `InvalidAmount` are
raised as plain `ValueError`, which only the generic handler catches —
with the `"Payment processing error: "` prefix. -/
theorem C4_amended :
    (∀ m : String, (PyError.emptyOrderErr m).isDomainException = true ∧
      (PyError.orderAlreadyPaidErr m).isDomainException = true ∧
      (PyError.orderCannotBeModifiedErr m).isDomainException = true ∧
      (PyError.invalidOrderLineErr m).isDomainException = true ∧
      (PyError.valueErr m).isDomainException = false) ∧
    (∀ (oid : Nat) (e : PyError), e.isDomainException = true →
      handleErr oid e = ⟨false, some oid, none, some e.msg⟩) ∧
    (∀ (oid : Nat) (e : PyError), e.isDomainException = false →
      handleErr oid e = ⟨false, some oid, none,
        some ("Payment processing error: " ++ e.msg)⟩) ∧
    (∀ (o : Order) (pid : Nat) (q : Int), o.status ≠ .paid →
      (∀ l ∈ o.lines, l.product_id ≠ pid) →
      o.update_quantity pid q =
        .error (.valueErr ("Product " ++ toString pid ++ " not found in order"))) ∧
    (∀ m1 m2 : Money, m1.currency ≠ m2.currency →
      m1.add m2 = .error (.valueErr ("Cannot add different currencies: " ++
        m1.currency ++ " and " ++ m2.currency))) ∧
    (∀ (a : ℚ) (c : String), a < 0 →
      Money.make a c = .error (.valueErr "Amount cannot be negative")) := by
  refine ⟨?_, ?_, ?_, ?_, ?_, ?_⟩
  · intro m
    exact ⟨rfl, rfl, rfl, rfl, rfl⟩
  · intro oid e he
    simp [handleErr, he]
  · intro oid e he
    simp [handleErr, he]
  · intro o pid q hp hnone
    exact update_quantity_not_found o pid q hp hnone
  · intro m1 m2 hc
    simp [Money.add, hc]
  · intro a c h
    simp [Money.make, h]

/-- Closed instances of the six parts of the amended C4 at concrete
inputs. -/
theorem C4_amended_witness :
    ((PyError.emptyOrderErr "x").isDomainException = true ∧
      (PyError.orderAlreadyPaidErr "x").isDomainException = true ∧
      (PyError.orderCannotBeModifiedErr "x").isDomainException = true ∧
      (PyError.invalidOrderLineErr "x").isDomainException = true ∧
      (PyError.valueErr "x").isDomainException = false) ∧
    handleErr 1 (.emptyOrderErr "boom") = ⟨false, some 1, none, some "boom"⟩ ∧
    handleErr 1 (.genericErr "boom") =
      ⟨false, some 1, none, some "Payment processing error: boom"⟩ ∧
    (Order.new 1 2).update_quantity 7 1 =
      .error (.valueErr "Product 7 not found in order") ∧
    (⟨1, "USD"⟩ : Money).add ⟨1, "EUR"⟩ =
      .error (.valueErr "Cannot add different currencies: USD and EUR") ∧
    Money.make (-1) "USD" = .error (.valueErr "Amount cannot be negative") :=
  ⟨C4_amended.1 "x",
   C4_amended.2.1 1 (.emptyOrderErr "boom") rfl,
   C4_amended.2.2.1 1 (.genericErr "boom") rfl,
   C4_amended.2.2.2.1 (Order.new 1 2) 7 1 (by decide) (by simp [Order.new]),
   C4_amended.2.2.2.2.1 ⟨1, "USD"⟩ ⟨1, "EUR"⟩ (by decide),
   C4_amended.2.2.2.2.2 (-1) "USD" (by norm_num)⟩

/-! ### Claim C5 -/

/-- Claim C5: once `pay()` has succeeded, every mutating operation
(`add_line`, `remove_line`, `update_quantity`, `clear_lines`, `cancel`)
fails with `OrderCannotBeModifiedError` — leaving the order unchanged,
since the raise precedes any mutation — and a second `pay()` fails with
`OrderAlreadyPaidError`. -/
theorem C5_paid_order_frozen (o o' : Order) (h : o.pay = .ok o') :
    (∀ pid n p q, o'.add_line pid n p q =
      .error (.orderCannotBeModifiedErr "Cannot modify paid order")) ∧
    (∀ pid, o'.remove_line pid =
      .error (.orderCannotBeModifiedErr "Cannot modify paid order")) ∧
    (∀ pid q, o'.update_quantity pid q =
      .error (.orderCannotBeModifiedErr "Cannot modify paid order")) ∧
    (o'.clear_lines = .error (.orderCannotBeModifiedErr "Cannot modify paid order")) ∧
    (o'.cancel = .error (.orderCannotBeModifiedErr "Cannot modify paid order")) ∧
    (o'.pay = .error (.orderAlreadyPaidErr "Order is already paid")) := by
  obtain ⟨hne, -, ho'⟩ := pay_ok_elim o o' h
  have hst : o'.status = .paid := by rw [ho']
  have hlines : o'.lines = o.lines := by rw [ho']
  obtain ⟨h1, h2, h3, h4, h5⟩ := paid_mutators_error o' hst
  refine ⟨h1, h2, h3, h4, h5, ?_⟩
  unfold Order.pay
  rw [hlines]
  simp [hne, hst]

/-- Closed instance of C5 after a concrete successful payment. -/
theorem C5_witness :
    ((⟨1, 2, [⟨5, "P", ⟨1, "USD"⟩, 1⟩], .paid, some (), 2⟩ : Order).add_line 6 "Q"
        ⟨2, "USD"⟩ 1 = .error (.orderCannotBeModifiedErr "Cannot modify paid order")) ∧
    ((⟨1, 2, [⟨5, "P", ⟨1, "USD"⟩, 1⟩], .paid, some (), 2⟩ : Order).remove_line 5 =
      .error (.orderCannotBeModifiedErr "Cannot modify paid order")) ∧
    ((⟨1, 2, [⟨5, "P", ⟨1, "USD"⟩, 1⟩], .paid, some (), 2⟩ : Order).update_quantity 5 3 =
      .error (.orderCannotBeModifiedErr "Cannot modify paid order")) ∧
    ((⟨1, 2, [⟨5, "P", ⟨1, "USD"⟩, 1⟩], .paid, some (), 2⟩ : Order).clear_lines =
      .error (.orderCannotBeModifiedErr "Cannot modify paid order")) ∧
    ((⟨1, 2, [⟨5, "P", ⟨1, "USD"⟩, 1⟩], .paid, some (), 2⟩ : Order).cancel =
      .error (.orderCannotBeModifiedErr "Cannot modify paid order")) ∧
    ((⟨1, 2, [⟨5, "P", ⟨1, "USD"⟩, 1⟩], .paid, some (), 2⟩ : Order).pay =
      .error (.orderAlreadyPaidErr "Order is already paid")) :=
  let h := C5_paid_order_frozen ⟨1, 2, [⟨5, "P", ⟨1, "USD"⟩, 1⟩], .pending, none, 1⟩
    ⟨1, 2, [⟨5, "P", ⟨1, "USD"⟩, 1⟩], .paid, some (), 2⟩ rfl
  ⟨h.1 6 "Q" ⟨2, "USD"⟩ 1, h.2.1 5, h.2.2.1 5 3, h.2.2.2.1, h.2.2.2.2.1, h.2.2.2.2.2⟩

/-! ### Claim C6 -/

/-- Claim C6: `pay` checks emptiness first (failing `EmptyOrderError` and
changing nothing — in particular a pending order stays pending), then the
already-paid guard (failing `OrderAlreadyPaidError`); otherwise it sets
the status to `PAID`, sets `paid_at` and increments the revision. -/
theorem C6_pay_guards (o : Order) :
    (o.lines = [] → o.pay = .error (.emptyOrderErr "Cannot pay empty order")) ∧
    (o.lines ≠ [] → o.status = .paid →
      o.pay = .error (.orderAlreadyPaidErr "Order is already paid")) ∧
    (o.lines ≠ [] → o.status ≠ .paid →
      o.pay =
        .ok { o with status := .paid, paid_at := some (), version := o.version + 1 }) :=
  ⟨fun h1 => by simp [Order.pay, h1],
   fun h1 h2 => by simp [Order.pay, h1, h2],
   fun h1 h2 => by simp [Order.pay, h1, h2]⟩

/-- Closed instances of the three guard branches of C6 at concrete
orders. -/
theorem C6_witness :
    ((Order.new 1 2).pay = .error (.emptyOrderErr "Cannot pay empty order")) ∧
    ((⟨1, 2, [⟨5, "P", ⟨1, "USD"⟩, 1⟩], .paid, some (), 2⟩ : Order).pay =
      .error (.orderAlreadyPaidErr "Order is already paid")) ∧
    ((⟨1, 2, [⟨5, "P", ⟨1, "USD"⟩, 1⟩], .pending, none, 1⟩ : Order).pay =
      .ok ⟨1, 2, [⟨5, "P", ⟨1, "USD"⟩, 1⟩], .paid, some (), 2⟩) :=
  ⟨(C6_pay_guards (Order.new 1 2)).1 rfl,
   (C6_pay_guards ⟨1, 2, [⟨5, "P", ⟨1, "USD"⟩, 1⟩], .paid, some (), 2⟩).2.1
     (by simp) rfl,
   (C6_pay_guards ⟨1, 2, [⟨5, "P", ⟨1, "USD"⟩, 1⟩], .pending, none, 1⟩).2.2
     (by simp) (by simp)⟩

/-! ### Claim C7 -/

/-- Claim C7: when `order.pay()` raises inside `execute`, the raised error
is a domain error, and `execute` returns a failure `PaymentResult`
carrying its message verbatim; the gateway's `charge` and the
repository's `save` are never invoked and the store is untouched. -/
theorem C7_domain_error_stops_processing (store : Store)
    (charge : Nat → Money → Except PyError String) (saveExc : Option PyError)
    (oid : Nat) (o : Order) (e : PyError)
    (hget : storeGet store oid = some o) (hpay : o.pay = .error e) :
    e.isDomainException = true ∧
    executeT store charge saveExc oid =
      ⟨⟨false, some oid, none, some e.msg⟩, store, false, false⟩ := by
  have hdom : e.isDomainException = true := by
    rcases pay_error_elim o e hpay with h | h <;> simp [h, PyError.isDomainException]
  refine ⟨hdom, ?_⟩
  rw [executeT_pay_error store charge saveExc oid o e hget hpay]
  simp [handleErr, hdom]

/-- Closed instance of C7: `execute` on a stored empty order. -/
theorem C7_witness :
    (PyError.emptyOrderErr "Cannot pay empty order").isDomainException = true ∧
    executeT [(1, Order.new 1 2)] (fun _ _ => .ok "TXN_1") none 1 =
      ⟨⟨false, some 1, none, some "Cannot pay empty order"⟩, [(1, Order.new 1 2)],
       false, false⟩ :=
  C7_domain_error_stops_processing [(1, Order.new 1 2)] (fun _ _ => .ok "TXN_1")
    none 1 (Order.new 1 2) (.emptyOrderErr "Cannot pay empty order") rfl rfl

/-! ### Claim C8 -/

/-- Claim C8: `total` of an order with no lines is 0 in the default
currency `"USD"`; on a non-empty order whose lines all share one currency
and satisfy the line invariants it is the sum of `price*quantity` over
the lines in that currency — hence independent of insertion order (any
permutation of the lines yields the same total); and when lines carry two
distinct currencies it fails with the `CurrencyMismatch` `ValueError`
from the underlying `Money.__add__`. -/
theorem C8_total_spec (o : Order) (c : String) :
    (o.lines = [] → o.total = .ok ⟨0, "USD"⟩) ∧
    ((∀ l ∈ o.lines, l.price.currency = c ∧ 0 < l.price.amount ∧ 0 < l.quantity) →
      o.lines ≠ [] → o.total = .ok ⟨(o.lines.map lineAmount).sum, c⟩) ∧
    (∀ o₂ : Order, o.lines.Perm o₂.lines →
      (∀ l ∈ o.lines, l.price.currency = c ∧ 0 < l.price.amount ∧ 0 < l.quantity) →
      o.total = o₂.total) ∧
    ((∀ l ∈ o.lines, 0 < l.price.amount ∧ 0 < l.quantity) →
      ∀ l₁ ∈ o.lines, ∀ l₂ ∈ o.lines, l₁.price.currency ≠ l₂.price.currency →
      ∃ c₁ c₂, c₁ ≠ c₂ ∧ o.total = .error (.valueErr
        ("Cannot add different currencies: " ++ c₁ ++ " and " ++ c₂))) := by
  refine ⟨?_, ?_, ?_, ?_⟩
  · intro hl
    simp [Order.total, hl]
  · intro hc hne
    exact total_ok_of_uniform o c hc hne
  · intro o₂ hperm hc
    by_cases hl : o.lines = []
    · have hl2 : o₂.lines = [] := by
        rw [hl] at hperm
        exact hperm.symm.eq_nil
      simp [Order.total, hl, hl2]
    · have hne2 : o₂.lines ≠ [] := by
        intro h2
        rw [h2] at hperm
        exact hl hperm.eq_nil
      have hc2 : ∀ l ∈ o₂.lines, l.price.currency = c ∧ 0 < l.price.amount ∧
          0 < l.quantity := fun l hl2 => hc l (hperm.mem_iff.mpr hl2)
      rw [total_ok_of_uniform o c hc hl, total_ok_of_uniform o₂ c hc2 hne2,
        (hperm.map lineAmount).sum_eq]
  · intro hinv l₁ h₁ l₂ h₂ hdiff
    cases hl : o.lines with
    | nil =>
        rw [hl] at h₁
        simp at h₁
    | cons a rest =>
        have hpos : ∀ l ∈ a :: rest, 0 ≤ lineAmount l := by
          intro l hlm
          obtain ⟨hp, hq⟩ := hinv l (hl ▸ hlm)
          have hq' : (0 : ℚ) < (l.quantity : ℚ) := by exact_mod_cast hq
          exact le_of_lt (mul_pos hp hq')
        have hmix : ∃ l ∈ a :: rest,
            l.price.currency ≠ (⟨0, a.price.currency⟩ : Money).currency := by
          by_cases h1c : l₁.price.currency = a.price.currency
          · exact ⟨l₂, hl ▸ h₂, fun hh => hdiff (h1c.trans hh.symm)⟩
          · exact ⟨l₁, hl ▸ h₁, h1c⟩
        obtain ⟨c₂, hc₂, herr⟩ := totalFold_mismatch (a :: rest)
          ⟨0, a.price.currency⟩ le_rfl hpos hmix
        refine ⟨a.price.currency, c₂, fun hh => hc₂ hh.symm, ?_⟩
        have htot : o.total = totalFold ⟨0, a.price.currency⟩ (a :: rest) := by
          unfold Order.total
          rw [hl]
        rw [htot, herr]

/-- Closed instances of the four parts of C8: an empty order, a concrete
two-line single-currency order together with its reversal, and a concrete
mixed-currency order. -/
theorem C8_witness :
    ((Order.new 1 2).total = .ok ⟨0, "USD"⟩) ∧
    ((⟨1, 2, [⟨5, "A", ⟨1, "USD"⟩, 2⟩, ⟨6, "B", ⟨3, "USD"⟩, 1⟩], .pending, none, 2⟩ :
      Order).total = .ok ⟨5, "USD"⟩) ∧
    ((⟨1, 2, [⟨5, "A", ⟨1, "USD"⟩, 2⟩, ⟨6, "B", ⟨3, "USD"⟩, 1⟩], .pending, none, 2⟩ :
        Order).total =
      (⟨1, 2, [⟨6, "B", ⟨3, "USD"⟩, 1⟩, ⟨5, "A", ⟨1, "USD"⟩, 2⟩], .pending, none, 2⟩ :
        Order).total) ∧
    (∃ c₁ c₂, c₁ ≠ c₂ ∧
      (⟨1, 2, [⟨5, "A", ⟨1, "USD"⟩, 1⟩, ⟨6, "B", ⟨1, "EUR"⟩, 1⟩], .pending, none, 2⟩ :
        Order).total = .error (.valueErr
          ("Cannot add different currencies: " ++ c₁ ++ " and " ++ c₂))) := by
  refine ⟨(C8_total_spec (Order.new 1 2) "USD").1 rfl, ?_, ?_, ?_⟩
  · have h := (C8_total_spec
      ⟨1, 2, [⟨5, "A", ⟨1, "USD"⟩, 2⟩, ⟨6, "B", ⟨3, "USD"⟩, 1⟩], .pending, none, 2⟩
      "USD").2.1 (by
        intro l hl
        rcases List.mem_cons.mp hl with h1 | h1
        · rw [h1]; exact ⟨rfl, by norm_num, by decide⟩
        · rw [List.mem_singleton.mp h1]; exact ⟨rfl, by norm_num, by decide⟩)
      (by simp)
    rw [h]
    norm_num [lineAmount]
  · exact (C8_total_spec
      ⟨1, 2, [⟨5, "A", ⟨1, "USD"⟩, 2⟩, ⟨6, "B", ⟨3, "USD"⟩, 1⟩], .pending, none, 2⟩
      "USD").2.2.1
      ⟨1, 2, [⟨6, "B", ⟨3, "USD"⟩, 1⟩, ⟨5, "A", ⟨1, "USD"⟩, 2⟩], .pending, none, 2⟩
      (List.Perm.swap _ _ _)
      (by
        intro l hl
        rcases List.mem_cons.mp hl with h1 | h1
        · rw [h1]; exact ⟨rfl, by norm_num, by decide⟩
        · rw [List.mem_singleton.mp h1]; exact ⟨rfl, by norm_num, by decide⟩)
  · exact (C8_total_spec
      ⟨1, 2, [⟨5, "A", ⟨1, "USD"⟩, 1⟩, ⟨6, "B", ⟨1, "EUR"⟩, 1⟩], .pending, none, 2⟩
      "USD").2.2.2
      (by
        intro l hl
        rcases List.mem_cons.mp hl with h1 | h1
        · rw [h1]; exact ⟨by norm_num, by decide⟩
        · rw [List.mem_singleton.mp h1]; exact ⟨by norm_num, by decide⟩)
      ⟨5, "A", ⟨1, "USD"⟩, 1⟩ (List.mem_cons_self _ _)
      ⟨6, "B", ⟨1, "EUR"⟩, 1⟩ (List.mem_cons_of_mem _ (List.mem_singleton.mpr rfl))
      (by decide)

/-! ### Claim C9 -/

/-- Claim C9: `update_quantity` on a pending order raises the
product-not-found `ValueError` when no line matches; with a matching line
and quantity ≤ 0 it delegates to `remove_line` (so quantity 0 removes the
line, and with duplicate-free product ids the line count drops by exactly
one); with a matching line and a positive quantity it assigns the
quantity to the line and increments the revision once. -/
theorem C9_update_quantity_spec (o : Order) (pid : Nat) (q : Int)
    (hpend : o.status = .pending) :
    ((∀ l ∈ o.lines, l.product_id ≠ pid) →
      o.update_quantity pid q =
        .error (.valueErr ("Product " ++ toString pid ++ " not found in order"))) ∧
    ((∃ l ∈ o.lines, l.product_id = pid) → q ≤ 0 →
      (o.update_quantity pid q =
        (o.remove_line pid).bind (fun o₁ => .ok { o₁ with version := o₁.version + 1 })) ∧
      ∀ o', o.update_quantity pid q = .ok o' →
        o'.lines = o.lines.filter (fun l => l.product_id ≠ pid) ∧
        ((o.lines.map (fun l => l.product_id)).Nodup →
          o'.line_count = o.line_count - 1)) ∧
    ((∃ l ∈ o.lines, l.product_id = pid) → 0 < q →
      o.update_quantity pid q =
        .ok { o with lines := setQty o.lines pid q, version := o.version + 1 }) := by
  have hp : o.status ≠ .paid := by
    rw [hpend]
    intro h
    cases h
  refine ⟨?_, ?_, ?_⟩
  · intro hnone
    exact update_quantity_not_found o pid q hp hnone
  · intro hex hq
    have hfound : (o.lines.any (fun l => l.product_id == pid)) = true := by
      rcases hex with ⟨l, hl, hlp⟩
      exact List.any_eq_true.mpr ⟨l, hl, by simp [hlp]⟩
    refine ⟨update_quantity_delegates o pid q hp hfound hq, ?_⟩
    intro o' hok
    obtain ⟨-, -, -, hcase⟩ := update_quantity_ok_elim o pid q o' hok
    rcases hcase with ⟨-, hlines⟩ | ⟨hq', -⟩
    · refine ⟨hlines, fun hnd => ?_⟩
      unfold Order.line_count
      rw [hlines]
      exact filter_drop_one_length o.lines pid hnd hex
    · omega
  · intro hex hq
    have hfound : (o.lines.any (fun l => l.product_id == pid)) = true := by
      rcases hex with ⟨l, hl, hlp⟩
      exact List.any_eq_true.mpr ⟨l, hl, by simp [hlp]⟩
    have hq' : ¬ q ≤ 0 := by omega
    simp [Order.update_quantity, Order.check_modifiable, hp, hfound, hq',
      Bind.bind, Except.bind, pure, Except.pure]

/-- Closed instances of the three parts of C9 on a concrete two-line
pending order. -/
theorem C9_witness :
    ((⟨1, 2, [⟨5, "A", ⟨1, "USD"⟩, 1⟩, ⟨6, "B", ⟨2, "USD"⟩, 2⟩], .pending, none, 2⟩ :
        Order).update_quantity 7 1 =
      .error (.valueErr "Product 7 not found in order")) ∧
    ((⟨1, 2, [⟨5, "A", ⟨1, "USD"⟩, 1⟩, ⟨6, "B", ⟨2, "USD"⟩, 2⟩], .pending, none, 2⟩ :
        Order).update_quantity 5 0 =
      ((⟨1, 2, [⟨5, "A", ⟨1, "USD"⟩, 1⟩, ⟨6, "B", ⟨2, "USD"⟩, 2⟩], .pending, none, 2⟩ :
        Order).remove_line 5).bind
          (fun o₁ => .ok { o₁ with version := o₁.version + 1 })) ∧
    ((⟨1, 2, [⟨6, "B", ⟨2, "USD"⟩, 2⟩], .pending, none, 4⟩ : Order).lines =
      ([⟨5, "A", ⟨1, "USD"⟩, 1⟩, ⟨6, "B", ⟨2, "USD"⟩, 2⟩] :
        List OrderLine).filter (fun l => l.product_id ≠ 5)) ∧
    ((⟨1, 2, [⟨6, "B", ⟨2, "USD"⟩, 2⟩], .pending, none, 4⟩ : Order).line_count =
      (⟨1, 2, [⟨5, "A", ⟨1, "USD"⟩, 1⟩, ⟨6, "B", ⟨2, "USD"⟩, 2⟩], .pending, none, 2⟩ :
        Order).line_count - 1) ∧
    ((⟨1, 2, [⟨5, "A", ⟨1, "USD"⟩, 1⟩, ⟨6, "B", ⟨2, "USD"⟩, 2⟩], .pending, none, 2⟩ :
        Order).update_quantity 6 5 =
      .ok ⟨1, 2, [⟨5, "A", ⟨1, "USD"⟩, 1⟩, ⟨6, "B", ⟨2, "USD"⟩, 5⟩], .pending, none, 3⟩) := by
  have h := C9_update_quantity_spec
    ⟨1, 2, [⟨5, "A", ⟨1, "USD"⟩, 1⟩, ⟨6, "B", ⟨2, "USD"⟩, 2⟩], .pending, none, 2⟩ 5 0 rfl
  have h7 := C9_update_quantity_spec
    ⟨1, 2, [⟨5, "A", ⟨1, "USD"⟩, 1⟩, ⟨6, "B", ⟨2, "USD"⟩, 2⟩], .pending, none, 2⟩ 7 1 rfl
  have h6 := C9_update_quantity_spec
    ⟨1, 2, [⟨5, "A", ⟨1, "USD"⟩, 1⟩, ⟨6, "B", ⟨2, "USD"⟩, 2⟩], .pending, none, 2⟩ 6 5 rfl
  have hex5 : ∃ l ∈ ([⟨5, "A", ⟨1, "USD"⟩, 1⟩, ⟨6, "B", ⟨2, "USD"⟩, 2⟩] :
      List OrderLine), l.product_id = 5 :=
    ⟨⟨5, "A", ⟨1, "USD"⟩, 1⟩, List.mem_cons_self _ _, rfl⟩
  have hd := (h.2.1 hex5 le_rfl).2
    ⟨1, 2, [⟨6, "B", ⟨2, "USD"⟩, 2⟩], .pending, none, 4⟩ rfl
  refine ⟨h7.1 (by decide), (h.2.1 hex5 le_rfl).1, hd.1, hd.2 (by decide), ?_⟩
  exact h6.2.2 ⟨⟨6, "B", ⟨2, "USD"⟩, 2⟩,
    List.mem_cons_of_mem _ (List.mem_singleton.mpr rfl), rfl⟩ (by decide)

/-! ### Claim C10 -/

/-- Claim C10 as stated is false in one corner: when the repository's
`save` raises an error from the `DomainException` hierarchy after the
charge succeeded, `execute` still returns a failure result and discards
the transaction id, but the first `except` clause surfaces the message
VERBATIM, without the `"Payment processing error: "` prefix the claim
requires for every save failure. -/
theorem C10_counterexample :
    (executeT [(1, ⟨1, 2, [⟨5, "L", ⟨3, "USD"⟩, 1⟩], .pending, none, 1⟩)]
        (fun _ _ => .ok "TXN_1") (some (.emptyOrderErr "boom")) 1).result =
      ⟨false, some 1, none, some "boom"⟩ := by
  have htot : (⟨1, 2, [⟨5, "L", ⟨3, "USD"⟩, 1⟩], .paid, some (), 2⟩ : Order).total =
      .ok ⟨([(⟨5, "L", ⟨3, "USD"⟩, 1⟩ : OrderLine)].map lineAmount).sum, "USD"⟩ := by
    apply total_ok_of_uniform
    · intro l hl
      rw [List.mem_singleton.mp hl]
      exact ⟨rfl, by norm_num, by decide⟩
    · simp
  rw [executeT_save_error [(1, ⟨1, 2, [⟨5, "L", ⟨3, "USD"⟩, 1⟩], .pending, none, 1⟩)]
    (fun _ _ => .ok "TXN_1") 1
    ⟨1, 2, [⟨5, "L", ⟨3, "USD"⟩, 1⟩], .pending, none, 1⟩
    ⟨1, 2, [⟨5, "L", ⟨3, "USD"⟩, 1⟩], .paid, some (), 2⟩
    _ "TXN_1" (.emptyOrderErr "boom") rfl rfl htot rfl]
  rfl

/-- Claim C10, amended: with a raising `save`, `execute` never returns
success and always discards the transaction id; when the save call was
reached, the returned failure carries the save error through the handler —
with the `"Payment processing error: "` prefix exactly when the save error
is not a domain error (a `DomainException` from `save` is surfaced
verbatim instead). -/
theorem C10_amended (store : Store) (charge : Nat → Money → Except PyError String)
    (e : PyError) (oid : Nat) :
    (executeT store charge (some e) oid).result.success = false ∧
    (executeT store charge (some e) oid).result.transaction_id = none ∧
    ((executeT store charge (some e) oid).saveCalled = true →
      (executeT store charge (some e) oid).result = handleErr oid e ∧
      (e.isDomainException = false →
        (executeT store charge (some e) oid).result.error =
          some ("Payment processing error: " ++ e.msg))) := by
  have hh : ∀ (oid' : Nat) (e' : PyError), (handleErr oid' e').success = false ∧
      (handleErr oid' e').transaction_id = none := by
    intro oid' e'
    unfold handleErr
    split
    · exact ⟨rfl, rfl⟩
    · exact ⟨rfl, rfl⟩
  cases hget : storeGet store oid with
  | none =>
      rw [executeT_not_found store charge (some e) oid hget]
      exact ⟨rfl, rfl, fun hc => by cases hc⟩
  | some o =>
      cases hpay : o.pay with
      | error e' =>
          rw [executeT_pay_error store charge (some e) oid o e' hget hpay]
          exact ⟨(hh oid e').1, (hh oid e').2, fun hc => by cases hc⟩
      | ok o' =>
          cases htot : o'.total with
          | error e' =>
              rw [executeT_total_error store charge (some e) oid o o' e' hget hpay htot]
              exact ⟨(hh oid e').1, (hh oid e').2, fun hc => by cases hc⟩
          | ok t =>
              cases hch : charge oid t with
              | error e' =>
                  rw [executeT_charge_error store charge (some e) oid o o' t e'
                    hget hpay htot hch]
                  exact ⟨(hh oid e').1, (hh oid e').2, fun hc => by cases hc⟩
              | ok txid =>
                  rw [executeT_save_error store charge oid o o' t txid e
                    hget hpay htot hch]
                  refine ⟨(hh oid e).1, (hh oid e).2, fun _ => ⟨rfl, fun hnd => ?_⟩⟩
                  simp [handleErr, hnd]

/-- Closed instance of the amended C10: a concrete run whose `save`
raises a generic (non-domain) error after a successful charge. -/
theorem C10_amended_witness :
    (executeT [(1, ⟨1, 2, [⟨5, "L", ⟨3, "USD"⟩, 1⟩], .pending, none, 1⟩)]
      (fun _ _ => .ok "TXN_1") (some (.genericErr "db down")) 1).result.success = false ∧
    (executeT [(1, ⟨1, 2, [⟨5, "L", ⟨3, "USD"⟩, 1⟩], .pending, none, 1⟩)]
      (fun _ _ => .ok "TXN_1") (some (.genericErr "db down")) 1).result.transaction_id =
        none ∧
    (executeT [(1, ⟨1, 2, [⟨5, "L", ⟨3, "USD"⟩, 1⟩], .pending, none, 1⟩)]
      (fun _ _ => .ok "TXN_1") (some (.genericErr "db down")) 1).result.error =
        some "Payment processing error: db down" := by
  have h := C10_amended [(1, ⟨1, 2, [⟨5, "L", ⟨3, "USD"⟩, 1⟩], .pending, none, 1⟩)]
    (fun _ _ => .ok "TXN_1") (.genericErr "db down") 1
  have htot : (⟨1, 2, [⟨5, "L", ⟨3, "USD"⟩, 1⟩], .paid, some (), 2⟩ : Order).total =
      .ok ⟨([(⟨5, "L", ⟨3, "USD"⟩, 1⟩ : OrderLine)].map lineAmount).sum, "USD"⟩ := by
    apply total_ok_of_uniform
    · intro l hl
      rw [List.mem_singleton.mp hl]
      exact ⟨rfl, by norm_num, by decide⟩
    · simp
  have hsave : (executeT [(1, ⟨1, 2, [⟨5, "L", ⟨3, "USD"⟩, 1⟩], .pending, none, 1⟩)]
      (fun _ _ => .ok "TXN_1") (some (.genericErr "db down")) 1).saveCalled = true := by
    rw [executeT_save_error [(1, ⟨1, 2, [⟨5, "L", ⟨3, "USD"⟩, 1⟩], .pending, none, 1⟩)]
      (fun _ _ => .ok "TXN_1") 1
      ⟨1, 2, [⟨5, "L", ⟨3, "USD"⟩, 1⟩], .pending, none, 1⟩
      ⟨1, 2, [⟨5, "L", ⟨3, "USD"⟩, 1⟩], .paid, some (), 2⟩
      _ "TXN_1" (.genericErr "db down") rfl rfl htot rfl]
  exact ⟨h.1, h.2.1, (h.2.2 hsave).2 rfl⟩

end Lab7
